import Mathlib

/-!
Verification development for the `pybullet_ros` bridge node
(`src/ros/src/pybullet_ros/pybullet_ros.py`, class `pyBulletRosWrapper`).

The physics backend (pybullet) and the messaging layer (rospy) are external
collaborators; they are modelled by an environment `Env` of oracles (parameter
values, the handle returned by each scene-load call, the backend's joint list
and per-joint state, the byte decoder, the current time) and by a trace of
`Event`s recording the externally visible calls the wrapper makes, in order.
The wrapper's own mutable fields (`self.robot`, `self.joint_index_name_dic`,
`self.plugins`, `self.pause_simulation`) form `SimState`.  Every definition
below is a line-by-line transcription of the corresponding Python method.
-/

namespace PybulletRos

/-- Backend joint-type code for a revolute joint; the source tests
`info[2] == 0  # 0 -> JOINT_REVOLUTE`. -/
def JOINT_REVOLUTE : Nat := 0

/-- Opaque backend bit-flag constant `pybullet.URDF_USE_INERTIA_FROM_FILE`
(the concrete numeral only matters as a distinct bit). -/
def URDF_USE_INERTIA_FROM_FILE : Nat := 2

/-- Opaque backend bit-flag constant `pybullet.URDF_USE_SELF_COLLISION`
(the concrete numeral only matters as a distinct bit). -/
def URDF_USE_SELF_COLLISION : Nat := 8

/-- One record of the backend's joint list, as returned by `getJointInfo`:
`info[1]` is the joint name as raw bytes, `info[2]` is the joint-type code. -/
structure JointInfo where
  nameBytes : List Nat
  jointType : Nat
deriving DecidableEq

/-- One record returned by the backend's `getJointState`: the source reads
`joint_state[0]` (position), `joint_state[1]` (velocity) and
`joint_state[3]` (applied effort in the last step); `joint_state[2]` holds
reaction forces.  Numeric values are opaque pass-through data here, so they
are modelled as integers. -/
structure JointSt where
  position : Int
  velocity : Int
  reactionForces : Int
  appliedEffort : Int
deriving DecidableEq

/-- The environment: the ROS parameter-server values read by the wrapper
(with the source's defaults applied by the caller of `rospy.get_param`),
plus oracles for the external pybullet backend and for `rospy.Time.now()`.
`handleOf n` is the opaque body handle the backend returns for the n-th
`loadURDF` call of the process; `jointInfos r` is the backend's joint list
for body handle `r`; `jointState r i` its state for joint `i` of body `r`;
`decode` is the `bytes.decode` text decoder. -/
structure Env where
  robot_urdf_path : Option String
  robot_pose_x : Int
  robot_pose_y : Int
  robot_pose_z : Int
  robot_pose_yaw : Int
  fixed_base : Bool
  use_intertia_from_file : Bool
  gravity : Int
  pybullet_gui : Bool
  pause_simulation : Bool
  plugins_param : List Nat
  handleOf : Nat → Nat
  jointInfos : Nat → List JointInfo
  jointState : Nat → Nat → JointSt
  decode : List Nat → String
  now : Nat

/-- The wrapper's mutable fields.  `joint_index_name_dic` is the Python dict
joint index → joint name, in insertion order; `plugins` is the ordered list
of constructed plugin objects (opaque, identified by index of construction);
`loadCount` counts the backend `loadURDF` calls made so far, indexing the
`Env.handleOf` oracle; `shutdownRequested` records a `rospy.signal_shutdown`
call (which only *requests* shutdown — execution continues). -/
structure SimState where
  loadCount : Nat
  robot : Nat
  joint_index_name_dic : List (Nat × String)
  plugins : List Nat
  pause_simulation : Bool
  shutdownRequested : Bool
deriving DecidableEq

/-- The aggregated `sensor_msgs/JointState` message built by
`publish_joint_states`: parallel lists of names, positions, velocities and
applied efforts, plus the header timestamp. -/
structure JointStateMsg where
  name : List String
  position : List Int
  velocity : List Int
  effort : List Int
  stamp : Nat
deriving DecidableEq

/-- Externally visible calls made by the wrapper, in program order. -/
inductive Event where
  | connect (gui : Bool)
  | setSearchPath
  | signalShutdown
  | setGravity (g : Int)
  | loadPlane
  | setRealTimeSimulation (v : Nat)
  | loadRobot (path : Option String) (flags : Nat)
  | resetSimulation
  | publish (msg : JointStateMsg)
  | pluginExec (p : Nat)
  | stepSimulation
  | sleep
deriving DecidableEq

/-- The URDF flags bitmask computed in `init_pybullet_robot`:
self-collision is always on; inertia-from-file is OR-ed in when the
`~use_intertia_from_file` parameter is set. -/
def urdfFlags (env : Env) : Nat :=
  if env.use_intertia_from_file then
    Nat.lor URDF_USE_INERTIA_FROM_FILE URDF_USE_SELF_COLLISION
  else
    URDF_USE_SELF_COLLISION

/-- `init_pybullet_robot`: reads `~robot_urdf_path` (default `None`) and, when
it is `None`, calls `rospy.signal_shutdown(...)` — which does **not** abort the
method; the remaining statements still run.  It then sets gravity, loads the
ground plane `plane.urdf` (whose returned handle the source discards), disables
real-time stepping, and finally loads the robot URDF, returning the backend's
handle for it.  Returns (updated state, robot handle, event trace). -/
def init_pybullet_robot (env : Env) (st : SimState) : SimState × Nat × List Event :=
  let urdf_path := env.robot_urdf_path
  let shutdownEv : List Event :=
    if urdf_path = none then [Event.signalShutdown] else []
  let st1 : SimState :=
    { st with shutdownRequested := st.shutdownRequested || urdf_path = none }
  let flags := urdfFlags env
  -- self.pb.setGravity(0, 0, gravity); self.pb.loadURDF('plane.urdf');
  -- self.pb.setRealTimeSimulation(0); the plane's handle is discarded.
  let st2 : SimState := { st1 with loadCount := st1.loadCount + 1 }
  -- return self.pb.loadURDF(urdf_path, ...)
  let robotHandle := env.handleOf st2.loadCount
  let st3 : SimState := { st2 with loadCount := st2.loadCount + 1 }
  (st3, robotHandle,
    shutdownEv ++
      [Event.setGravity env.gravity, Event.loadPlane,
       Event.setRealTimeSimulation 0, Event.loadRobot urdf_path flags])

/-- `handle_pause_physics`: the source sets `self.pause_simulation = False`
(its docstring says it raises the flag to prevent stepping, but the
assignment writes `False`). -/
def handle_pause_physics (st : SimState) : SimState :=
  { st with pause_simulation := false }

/-- `handle_unpause_physics`: the source sets `self.pause_simulation = True`
(its docstring says it lowers the flag to allow stepping, but the
assignment writes `True`). -/
def handle_unpause_physics (st : SimState) : SimState :=
  { st with pause_simulation := true }

/-- `handle_reset_simulation` (the class defines this method twice; Python
binds the later definition, modelled here): set the pause flag, call the
backend's `resetSimulation`, re-run `init_pybullet_robot` — whose returned
robot handle is **discarded** (the source does not assign it to
`self.robot`) — then clear the pause flag. -/
def handle_reset_simulation (env : Env) (st : SimState) : SimState × List Event :=
  let st1 : SimState := { st with pause_simulation := true }
  let res := init_pybullet_robot env st1
  let st2 : SimState := { res.1 with pause_simulation := false }
  (st2, Event.resetSimulation :: res.2.2)

/-- The fresh robot handle produced by the robot re-load that
`handle_reset_simulation` performs (the value the source discards). -/
def resetReloadHandle (env : Env) (st : SimState) : Nat :=
  (init_pybullet_robot env { st with pause_simulation := true }).2.1

/-- The loop body of `get_all_revolute_joint_names`: walk the backend's joint
list starting at joint index `k`; keep `(index, decoded name)` exactly when
the type code is the revolute constant. -/
def collectRevolute (decode : List Nat → String) :
    List JointInfo → Nat → List (Nat × String)
  | [], _ => []
  | info :: rest, k =>
    if info.jointType = JOINT_REVOLUTE then
      (k, decode info.nameBytes) :: collectRevolute decode rest (k + 1)
    else
      collectRevolute decode rest (k + 1)

/-- `get_all_revolute_joint_names`: iterate joint indices
`0 .. getNumJoints(robot) - 1`, query `getJointInfo`, and build the dict of
revolute-joint index → name (Python dicts preserve insertion order, so the
result is ordered by increasing joint index). -/
def get_all_revolute_joint_names (env : Env) (robot : Nat) : List (Nat × String) :=
  collectRevolute env.decode (env.jointInfos robot) 0

/-- The `for joint_index in self.joint_index_name_dic` loop of
`publish_joint_states`: for each entry, query `getJointState` and append
name, `joint_state[0]`, `joint_state[1]` and `joint_state[3]` to the
message's lists. -/
def fillJointStates (env : Env) (robot : Nat) :
    List (Nat × String) → JointStateMsg → JointStateMsg
  | [], msg => msg
  | (joint_index, nm) :: rest, msg =>
    let joint_state := env.jointState robot joint_index
    fillJointStates env robot rest
      { msg with
        name := msg.name ++ [nm],
        position := msg.position ++ [joint_state.position],
        velocity := msg.velocity ++ [joint_state.velocity],
        effort := msg.effort ++ [joint_state.appliedEffort] }

/-- `publish_joint_states`: build an empty `JointState` message, fill it from
the joint table in dict order, stamp it with `rospy.Time.now()`, and return
the message handed to the publisher. -/
def publish_joint_states (env : Env) (st : SimState) : JointStateMsg :=
  let msg := fillJointStates env st.robot st.joint_index_name_dic
    { name := [], position := [], velocity := [], effort := [], stamp := 0 }
  { msg with stamp := env.now }

/-- One iteration of the `start_pybullet_ros_wrapper` loop: when the pause
flag is down, publish the joint states, call `execute()` on every plugin in
list order, and step the simulation; then sleep unconditionally.  The body
mutates no wrapper field, so the iteration is its event trace. -/
def tick (env : Env) (st : SimState) : List Event :=
  (if !st.pause_simulation then
      Event.publish (publish_joint_states env st) ::
        (st.plugins.map Event.pluginExec ++ [Event.stepSimulation])
    else []) ++ [Event.sleep]

/-- The `__init__` startup sequence: connect to the backend (GUI or DIRECT),
set the data search path, run `init_pybullet_robot` and store the returned
robot handle in `self.robot`, build `self.joint_index_name_dic`, and append
the configured plugins in configuration order. -/
def startup (env : Env) : SimState × List Event :=
  let st0 : SimState :=
    { loadCount := 0, robot := 0, joint_index_name_dic := [], plugins := [],
      pause_simulation := env.pause_simulation, shutdownRequested := false }
  let res := init_pybullet_robot env st0
  let st1 : SimState := { res.1 with robot := res.2.1 }
  let st2 : SimState :=
    { st1 with joint_index_name_dic := get_all_revolute_joint_names env st1.robot }
  let st3 : SimState := { st2 with plugins := env.plugins_param }
  (st3, Event.connect env.pybullet_gui :: Event.setSearchPath :: res.2.2)

/-! ### Helper lemmas -/

/-- The append-loop of `publish_joint_states` concatenates, onto the message
built so far, the per-entry name/position/velocity/effort lists in table
order, and leaves the stamp alone. -/
theorem fillJointStates_eq (env : Env) (robot : Nat) :
    ∀ (entries : List (Nat × String)) (msg : JointStateMsg),
      fillJointStates env robot entries msg =
        { name := msg.name ++ entries.map (fun p => p.2),
          position :=
            msg.position ++ entries.map (fun p => (env.jointState robot p.1).position),
          velocity :=
            msg.velocity ++ entries.map (fun p => (env.jointState robot p.1).velocity),
          effort :=
            msg.effort ++ entries.map (fun p => (env.jointState robot p.1).appliedEffort),
          stamp := msg.stamp }
  | [], msg => by simp [fillJointStates]
  | (joint_index, nm) :: rest, msg => by
    rw [fillJointStates, fillJointStates_eq env robot rest]
    simp

/-- Closed form of `publish_joint_states`: parallel lists mapped over the
joint table in order, stamped with the current time. -/
theorem publish_joint_states_eq (env : Env) (st : SimState) :
    publish_joint_states env st =
      { name := st.joint_index_name_dic.map (fun p => p.2),
        position := st.joint_index_name_dic.map
          (fun p => (env.jointState st.robot p.1).position),
        velocity := st.joint_index_name_dic.map
          (fun p => (env.jointState st.robot p.1).velocity),
        effort := st.joint_index_name_dic.map
          (fun p => (env.jointState st.robot p.1).appliedEffort),
        stamp := env.now } := by
  rw [publish_joint_states, fillJointStates_eq]
  simp

/-- Membership in the revolute-joint collection loop started at offset `k`:
exactly the joints of the list whose type code is the revolute constant,
keyed by absolute joint index, named by the decoded bytes. -/
theorem collectRevolute_mem (decode : List Nat → String) :
    ∀ (infos : List JointInfo) (k i : Nat) (s : String),
      (i, s) ∈ collectRevolute decode infos k ↔
        ∃ info : JointInfo, k ≤ i ∧ infos.get? (i - k) = some info ∧
          info.jointType = JOINT_REVOLUTE ∧ s = decode info.nameBytes
  | [], k, i, s => by simp [collectRevolute]
  | info :: rest, k, i, s => by
    rw [collectRevolute]
    by_cases htype : info.jointType = JOINT_REVOLUTE
    · rw [if_pos htype]
      constructor
      · intro hmem
        rcases List.mem_cons.mp hmem with hhead | htail
        · have hik : i = k ∧ s = decode info.nameBytes := by simpa using hhead
          refine ⟨info, le_of_eq hik.1.symm, ?_, htype, hik.2⟩
          simp [hik.1]
        · rcases (collectRevolute_mem decode rest (k + 1) i s).mp htail with
            ⟨info', hle, hget, ht, hs⟩
          refine ⟨info', by omega, ?_, ht, hs⟩
          have : i - k = (i - (k + 1)) + 1 := by omega
          rw [this]
          simpa using hget
      · rintro ⟨info', hle, hget, ht, hs⟩
        rcases Nat.eq_or_lt_of_le hle with heq | hlt
        · refine List.mem_cons.mpr (Or.inl ?_)
          have hik : i - k = 0 := by omega
          rw [hik] at hget
          simp only [List.get?] at hget
          cases hget
          simp [heq, hs]
        · right
          refine (collectRevolute_mem decode rest (k + 1) i s).mpr
            ⟨info', by omega, ?_, ht, hs⟩
          have hik : i - k = (i - (k + 1)) + 1 := by omega
          rw [hik] at hget
          simpa using hget
    · rw [if_neg htype]
      constructor
      · intro hmem
        rcases (collectRevolute_mem decode rest (k + 1) i s).mp hmem with
          ⟨info', hle, hget, ht, hs⟩
        refine ⟨info', by omega, ?_, ht, hs⟩
        have : i - k = (i - (k + 1)) + 1 := by omega
        rw [this]
        simpa using hget
      · rintro ⟨info', hle, hget, ht, hs⟩
        rcases Nat.eq_or_lt_of_le hle with heq | hlt
        · exfalso
          have : i - k = 0 := by omega
          rw [this] at hget
          simp only [List.get?] at hget
          cases hget
          exact htype ht
        · refine (collectRevolute_mem decode rest (k + 1) i s).mpr
            ⟨info', by omega, ?_, ht, hs⟩
          have hik : i - k = (i - (k + 1)) + 1 := by omega
          rw [hik] at hget
          simpa using hget

/-- Every key produced by the collection loop started at `k` is at least `k`. -/
theorem collectRevolute_key_ge (decode : List Nat → String) :
    ∀ (infos : List JointInfo) (k : Nat) (p : Nat × String),
      p ∈ collectRevolute decode infos k → k ≤ p.1
  | [], _, _, h => by simp [collectRevolute] at h
  | info :: rest, k, p, h => by
    rw [collectRevolute] at h
    by_cases htype : info.jointType = JOINT_REVOLUTE
    · rw [if_pos htype] at h
      rcases List.mem_cons.mp h with hhead | htail
      · simp [hhead]
      · exact Nat.le_of_succ_le (collectRevolute_key_ge decode rest (k + 1) p htail)
    · rw [if_neg htype] at h
      exact Nat.le_of_succ_le (collectRevolute_key_ge decode rest (k + 1) p h)

/-- The keys of the collection loop are strictly increasing, so the result
is a well-formed map: no joint index occurs twice. -/
theorem collectRevolute_pairwise (decode : List Nat → String) :
    ∀ (infos : List JointInfo) (k : Nat),
      (collectRevolute decode infos k).Pairwise (fun p q => p.1 < q.1)
  | [], _ => by simp [collectRevolute]
  | info :: rest, k => by
    rw [collectRevolute]
    by_cases htype : info.jointType = JOINT_REVOLUTE
    · rw [if_pos htype]
      refine List.Pairwise.cons ?_ (collectRevolute_pairwise decode rest (k + 1))
      intro q hq
      exact Nat.lt_of_succ_le (collectRevolute_key_ge decode rest (k + 1) q hq)
    · rw [if_neg htype]
      exact collectRevolute_pairwise decode rest (k + 1)

/-! ### Concrete example environments and states, used by witnesses and
counterexamples -/

/-- A concrete environment: a robot URDF path is configured, gravity is the
default, the backend hands out body handles sequentially, the robot has one
revolute joint (type code 0) and one fixed joint (type code 4), and every
joint reports state (10, 20, 30, 40). -/
def exEnv : Env :=
  { robot_urdf_path := some "r2d2.urdf"
    robot_pose_x := 0, robot_pose_y := 0, robot_pose_z := 1, robot_pose_yaw := 0
    fixed_base := false
    use_intertia_from_file := false
    gravity := -981
    pybullet_gui := false
    pause_simulation := false
    plugins_param := [0]
    handleOf := fun n => n
    jointInfos := fun _ => [⟨[106, 111, 105, 110, 116, 49], 0⟩, ⟨[102, 106], 4⟩]
    jointState := fun _ _ => ⟨10, 20, 30, 40⟩
    decode := fun _ => "joint1"
    now := 7 }

/-- A concrete wrapper state as produced by a startup under `exEnv`:
two `loadURDF` calls have happened (plane then robot), the robot's handle is
1, the joint table holds the single revolute joint, one plugin is loaded,
and the simulation is running (not paused). -/
def exSt : SimState :=
  { loadCount := 2, robot := 1, joint_index_name_dic := [(0, "joint1")],
    plugins := [0], pause_simulation := false, shutdownRequested := false }

/-- `exSt` with the pause flag raised. -/
def exPausedSt : SimState := { exSt with pause_simulation := true }

/-- `exSt` with an empty joint table (a robot with no revolute joints). -/
def exEmptySt : SimState := { exSt with joint_index_name_dic := [] }

/-- `exEnv` with the mandatory `~robot_urdf_path` parameter absent. -/
def exNoPathEnv : Env := { exEnv with robot_urdf_path := none }

/-! ### Claim theorems -/

/-- Claim C2 (confirmed): in every tick-loop iteration where the pause flag
is true at the start-of-iteration check, the iteration performs no
joint-state publish, no plugin `execute()` call and no backend step — its
event trace is exactly the fixed-rate sleep. -/
theorem paused_tick_is_sleep_only (env : Env) (st : SimState)
    (h : st.pause_simulation = true) : tick env st = [Event.sleep] := by
  simp [tick, h]

/-- Witness for C2 at the concrete paused state. -/
theorem paused_tick_is_sleep_only_witness :
    exPausedSt.pause_simulation = true ∧ tick exEnv exPausedSt = [Event.sleep] :=
  ⟨rfl, paused_tick_is_sleep_only exEnv exPausedSt rfl⟩

/-- Claim C6 (confirmed): in every tick-loop iteration where the pause flag
is false, the trace is exactly one publish of the aggregated joint-state
message (names, positions, velocities, applied efforts in joint-table
order, stamped with the current time), then one `execute()` per plugin in
list order, then one backend step, then the unconditional sleep. -/
theorem unpaused_tick_sequence (env : Env) (st : SimState)
    (h : st.pause_simulation = false) :
    tick env st =
      Event.publish
        { name := st.joint_index_name_dic.map (fun p => p.2),
          position := st.joint_index_name_dic.map
            (fun p => (env.jointState st.robot p.1).position),
          velocity := st.joint_index_name_dic.map
            (fun p => (env.jointState st.robot p.1).velocity),
          effort := st.joint_index_name_dic.map
            (fun p => (env.jointState st.robot p.1).appliedEffort),
          stamp := env.now } ::
        (st.plugins.map Event.pluginExec ++ [Event.stepSimulation, Event.sleep]) := by
  simp [tick, h, publish_joint_states_eq]

/-- Witness for C6 at the concrete running state with one revolute joint and
one plugin. -/
theorem unpaused_tick_sequence_witness :
    exSt.pause_simulation = false ∧
      tick exEnv exSt =
        Event.publish
          { name := ["joint1"], position := [10], velocity := [20],
            effort := [40], stamp := 7 } ::
          [Event.pluginExec 0, Event.stepSimulation, Event.sleep] := by
  refine ⟨rfl, (unpaused_tick_sequence exEnv exSt rfl).trans ?_⟩
  decide

/-- Claim C10 (confirmed): with an empty joint table, an unpaused tick still
publishes a joint-state message whose name, position, velocity and effort
lists are all empty — publishing is not skipped. -/
theorem empty_table_still_publishes (env : Env) (st : SimState)
    (h1 : st.pause_simulation = false) (h2 : st.joint_index_name_dic = []) :
    Event.publish
      { name := [], position := [], velocity := [], effort := [],
        stamp := env.now } ∈ tick env st := by
  simp [tick, h1, publish_joint_states_eq, h2]

/-- Witness for C10 at the concrete running state with no revolute joints. -/
theorem empty_table_still_publishes_witness :
    exEmptySt.pause_simulation = false ∧ exEmptySt.joint_index_name_dic = [] ∧
      Event.publish
        { name := [], position := [], velocity := [], effort := [],
          stamp := 7 } ∈ tick exEnv exEmptySt :=
  ⟨rfl, rfl, empty_table_still_publishes exEnv exEmptySt rfl rfl⟩

/-- Claim C5 (confirmed): for every joint list the backend returns, the
joint table contains exactly the entries whose type code is the revolute
constant, keyed by joint index, named by the decoded bytes, and with no
index occurring twice. -/
theorem joint_table_exactly_revolute (env : Env) (robot : Nat) :
    (∀ (i : Nat) (s : String),
        (i, s) ∈ get_all_revolute_joint_names env robot ↔
          ∃ info : JointInfo, (env.jointInfos robot).get? i = some info ∧
            info.jointType = JOINT_REVOLUTE ∧ s = env.decode info.nameBytes) ∧
      (get_all_revolute_joint_names env robot).Pairwise (fun p q => p.1 < q.1) := by
  constructor
  · intro i s
    rw [get_all_revolute_joint_names, collectRevolute_mem]
    simp
  · exact collectRevolute_pairwise env.decode (env.jointInfos robot) 0

/-- Claim C7 (confirmed): the reset handler leaves the joint
index-to-name table and the plugin list unchanged. -/
theorem reset_preserves_table_and_plugins (env : Env) (st : SimState) :
    ((handle_reset_simulation env st).1).joint_index_name_dic
        = st.joint_index_name_dic ∧
      ((handle_reset_simulation env st).1).plugins = st.plugins :=
  ⟨rfl, rfl⟩

/-- Claim C3 as stated is false on the code: under `exEnv` (the backend
hands out handles sequentially) starting from `exSt` (stored handle 1 after
two prior loads), the reset-time reload returns handle 3, but after the
handler the stored handle is still 1 — `handle_reset_simulation` discards
the value `init_pybullet_robot` returns. -/
theorem reset_keeps_stale_handle_cex :
    ((handle_reset_simulation exEnv exSt).1).robot = 1 ∧
      resetReloadHandle exEnv exSt = 3 ∧
      ((handle_reset_simulation exEnv exSt).1).robot
        ≠ resetReloadHandle exEnv exSt := by
  decide

/-- Claim C3 amended (corrected): the reset handler leaves the stored robot
handle unchanged — the handle returned by the reset-time robot reload is
discarded, not stored. -/
theorem reset_preserves_robot_handle (env : Env) (st : SimState) :
    ((handle_reset_simulation env st).1).robot = st.robot :=
  rfl

/-- Claim C4 as stated is false on the code: starting from a paused state
(flag true), after the reset handler the flag is false, not the pre-reset
value. -/
theorem reset_pause_flag_cex :
    exPausedSt.pause_simulation = true ∧
      ((handle_reset_simulation exEnv exPausedSt).1).pause_simulation = false := by
  decide

/-- Claim C4 amended (corrected): after the reset handler completes, the
pause flag is false (running), whatever its pre-reset value was. -/
theorem reset_sets_pause_false (env : Env) (st : SimState) :
    ((handle_reset_simulation env st).1).pause_simulation = false :=
  rfl

/-- Claim C1 (code bug): a pause-physics request does not stop ticking.
`handle_pause_physics` writes `False` to the pause flag — contradicting its
own docstring — so the very next tick still publishes the joint states and
still steps the backend; and it is the unpause-physics request that reduces
a tick to the bare sleep. -/
theorem pause_request_does_not_stop_ticking :
    (handle_pause_physics exSt).pause_simulation = false ∧
      Event.stepSimulation ∈ tick exEnv (handle_pause_physics exSt) ∧
      Event.publish (publish_joint_states exEnv (handle_pause_physics exSt))
          ∈ tick exEnv (handle_pause_physics exSt) ∧
      tick exEnv (handle_unpause_physics exSt) = [Event.sleep] := by
  decide

/-- Claim C8 (code bug): with the mandatory robot-description-path parameter
absent, startup only *requests* shutdown (`rospy.signal_shutdown` does not
abort the calling method) and then still issues the robot-load call with
the undefined (`None`) path. -/
theorem missing_path_still_loads_robot :
    ((startup exNoPathEnv).1).shutdownRequested = true ∧
      Event.signalShutdown ∈ (startup exNoPathEnv).2 ∧
      Event.loadRobot none URDF_USE_SELF_COLLISION ∈ (startup exNoPathEnv).2 := by
  decide

/-- Claim C9 as stated is false on the code: in the startup trace under
`exEnv`, the robot-load call is not followed by the gravity call, nor by
the ground-plane load — the robot load comes last. -/
theorem robot_load_not_before_gravity_cex :
    ¬ List.Sublist [Event.loadRobot (some "r2d2.urdf") URDF_USE_SELF_COLLISION,
        Event.setGravity (-981)] (startup exEnv).2 ∧
      ¬ List.Sublist [Event.loadRobot (some "r2d2.urdf") URDF_USE_SELF_COLLISION,
        Event.loadPlane] (startup exEnv).2 := by
  decide

/-- Claim C9 amended (corrected): during startup, gravity is set and the
ground-plane asset is loaded before the robot description is loaded — the
robot load is the last backend call of the robot-initialization routine. -/
theorem gravity_and_plane_before_robot_load (env : Env) :
    List.Sublist
      [Event.setGravity env.gravity, Event.loadPlane,
        Event.loadRobot env.robot_urdf_path (urdfFlags env)]
      (startup env).2 := by
  have h1 : List.Sublist
      [Event.setGravity env.gravity, Event.loadPlane,
        Event.loadRobot env.robot_urdf_path (urdfFlags env)]
      [Event.setGravity env.gravity, Event.loadPlane,
        Event.setRealTimeSimulation 0,
        Event.loadRobot env.robot_urdf_path (urdfFlags env)] :=
    List.Sublist.cons₂ _ (List.Sublist.cons₂ _
      (List.Sublist.cons _ (List.Sublist.cons₂ _ List.Sublist.slnil)))
  exact List.Sublist.cons _ (List.Sublist.cons _
    (h1.trans (List.sublist_append_right _ _)))

end PybulletRos
